import Mathlib

/-!
Shallow embedding of `src/mongodb.go` (package `database`, the MongoDB
client of golang-common-packages/database).

The mongo driver and the store are external: their behaviour is supplied
by a `MongoEnv` record saying whether `StartSession` / `StartTransaction`
succeed and which error (if any) each store call returns.  Each public
operation is translated into a pure Lean function that returns its Go
outcome (`ok` result / returned `error` / propagated panic) together with
the sequence of externally visible events it performed (session start,
transaction start, store queries, session end), in program order.
Logging calls (`log.Println`, `fmt.Printf`) are not modelled as events.
-/

namespace MongoDB

/-- Go `error` values, modelled by their message. -/
abbrev GoError := String

/-- `primitive.ObjectID`: 12 bytes. -/
abbrev ObjectId := List Nat

/-- `primitive.NilObjectID`: the zero ObjectID. -/
def nilObjectID : ObjectId := List.replicate 12 0

/-- Value of a hex digit, as accepted by Go `encoding/hex` (0-9, a-f, A-F). -/
def hexVal (c : Char) : Option Nat :=
  if '0' ≤ c ∧ c ≤ '9' then some (c.toNat - '0'.toNat)
  else if 'a' ≤ c ∧ c ≤ 'f' then some (c.toNat - 'a'.toNat + 10)
  else if 'A' ≤ c ∧ c ≤ 'F' then some (c.toNat - 'A'.toNat + 10)
  else none

/-- `hex.Decode`: consume the characters two at a time into bytes. -/
def decodeHexPairs : List Char → Option (List Nat)
  | [] => some []
  | c1 :: c2 :: rest => do
      let h ← hexVal c1
      let l ← hexVal c2
      let tail ← decodeHexPairs rest
      pure ((h * 16 + l) :: tail)
  | _ => none

/-- `primitive.ObjectIDFromHex`: a 24-character hex string decodes to the
12-byte ObjectID; anything else yields `NilObjectID` together with an
error (Go returns the pair `(NilObjectID, err)`). -/
def objectIDFromHex (s : String) : ObjectId × Option GoError :=
  if s.length = 24 then
    match decodeHexPairs s.data with
    | some bs => (bs, none)
    | none => (nilObjectID, some "the provided hex string is not a valid ObjectID")
  else (nilObjectID, some "the provided hex string is not a valid ObjectID")

/-- `strconv.ParseInt(s, 10, 64)`: optional sign followed by at least one
decimal digit; out-of-range values are clamped and flagged.  Returns the
Go pair (value, error). -/
def parseInt64 (s : String) : Int × Option GoError :=
  let cs := s.data
  let signAndDigits : Bool × List Char :=
    match cs with
    | '+' :: rest => (false, rest)
    | '-' :: rest => (true, rest)
    | _ => (false, cs)
  let neg := signAndDigits.1
  let ds := signAndDigits.2
  if ds = [] ∨ ¬ ds.all Char.isDigit then
    (0, some ("strconv.ParseInt: parsing \"" ++ s ++ "\": invalid syntax"))
  else
    let n : Nat := ds.foldl (fun a c => a * 10 + (c.toNat - '0'.toNat)) 0
    let v : Int := if neg then -(n : Int) else (n : Int)
    if v < -(2 ^ 63) then
      (-(2 ^ 63), some ("strconv.ParseInt: parsing \"" ++ s ++ "\": value out of range"))
    else if (2 ^ 63 - 1 : Int) < v then
      ((2 ^ 63 - 1 : Int), some ("strconv.ParseInt: parsing \"" ++ s ++ "\": value out of range"))
    else (v, none)

/-- BSON values appearing in the filters and pipelines this file builds:
strings, ObjectIDs, 64-bit integers, and nested documents (`bson.M`). -/
inductive BVal where
  | str : String → BVal
  | oid : ObjectId → BVal
  | int64 : Int → BVal
  | doc : List (String × BVal) → BVal

/-- A `bson.M` document, as the association list of its entries. -/
abbrev BsonM := List (String × BVal)

/-- Options passed to `collection.Find`: the limit and the sort
specification (`bson.D`, field name paired with direction). -/
structure FindOpts where
  limit : Int
  sort : List (String × Int)

/-- A Go `interface{}` argument, as passed for the `ID` parameter of
`Update`/`Delete`: either a `primitive.ObjectID`, a string, or some other
dynamic value. -/
inductive GoValue where
  | oidV : ObjectId → GoValue
  | strV : String → GoValue
  | otherV : GoValue

/-- The type assertion `ID.(primitive.ObjectID)`. -/
def asObjectID : GoValue → Option ObjectId
  | GoValue.oidV o => some o
  | _ => none

/-- Behaviour of the external store/driver during one call: whether
`StartSession` and `StartTransaction` succeed, and the error (if any)
produced by each kind of store call.  `decodeErr` is the error of
`cursor.All` / `SingleResult.Decode`. -/
structure MongoEnv where
  sessionOk : Bool
  txnOk : Bool
  findErr : Option GoError
  findOneErr : Option GoError
  aggErr : Option GoError
  decodeErr : Option GoError
  insertErr : Option GoError
  updateErr : Option GoError
  deleteErr : Option GoError

/-- Externally visible events of one operation, in program order. -/
inductive Event where
  | sessionStart : Event
  | txnStart : Event
  | sessionEnd : Event
  | findQuery : String → String → BsonM → FindOpts → Event
  | findOneQuery : String → String → BsonM → Event
  | aggregateQuery : String → String → List BsonM → Event
  | insertOp : String → String → Event
  | updateOp : String → String → BsonM → Event
  | deleteOp : String → String → BsonM → Event

/-- How a Go function call ends: normal return of a value, normal return
of an error (the value being nil), or a propagating panic. -/
inductive Outcome (α : Type) where
  | ok : α → Outcome α
  | err : GoError → Outcome α
  | panicked : String → Outcome α

/-- The `interface{}` result of a successful operation: either a value
that was fully materialized (decoded document(s) or a store mutation
result), or a freshly allocated target whose decode failed. -/
inductive ResultVal where
  | materialized : ResultVal
  | zeroValue : ResultVal

/-- `createSession`: `StartSession` then `StartTransaction`; each failure
path logs and panics, so a transaction-start failure leaves the freshly
created session without an `EndSession`. -/
def createSession (env : MongoEnv) : Outcome Unit × List Event :=
  if env.sessionOk then
    if env.txnOk then
      (Outcome.ok (), [Event.sessionStart, Event.txnStart])
    else
      (Outcome.panicked "Error when try to start transaction", [Event.sessionStart])
  else
    (Outcome.panicked "Error when try to start session", [])

/-- The panic message of a nil-pointer dereference at runtime, raised when
a deferred `cur.Close(ctx)` runs with `cur = nil`. -/
def nilDerefMsg : String :=
  "runtime error: invalid memory address or nil pointer dereference"

/-- The `GetALL` validation error for four simultaneously empty arguments. -/
def emptyArgsMsg : String :=
  "databaseName, collectionName, lastID and pageSize must not empty"

/-- The error returned by `Update`/`Delete` when the type assertion
`ID.(primitive.ObjectID)` fails. -/
def typeMismatchMsg : String :=
  "can't convert userID type interface to primitive.ObjectID at DeleteUser function"

/-- Common shape of every public operation: `createSession` (whose panics
escape before the `defer session.EndSession(ctx)` is registered), then the
rest of the operation, with `EndSession` running on every later exit path
(normal or panicking) by `defer` semantics. -/
def runWithSession (env : MongoEnv) (body : Outcome ResultVal × List Event) :
    Outcome ResultVal × List Event :=
  match createSession env with
  | (Outcome.panicked msg, tr) => (Outcome.panicked msg, tr)
  | (Outcome.err msg, tr) => (Outcome.err msg, tr)
  | (Outcome.ok _, tr0) => (body.1, tr0 ++ body.2 ++ [Event.sessionEnd])

/-- Everything `GetALL` does between session creation and `EndSession`:
the empty-arguments validation, filter construction (an invalid `lastID`
is logged and the zero ObjectID used), `ParseInt` of `pageSize` (failure
logged, `limit` stays 0), the `Find` call — whose cursor is `nil` on
error, so the already deferred `cur.Close` panics — and `cur.All`. -/
def getAllBody (env : MongoEnv)
    (databaseName collectionName lastID pageSize : String) :
    Outcome ResultVal × List Event :=
  if databaseName = "" ∧ collectionName = "" ∧ lastID = "" ∧ pageSize = "" then
    (Outcome.err emptyArgsMsg, [])
  else
    let filter : BsonM :=
      if lastID ≠ "" then
        [("_id", BVal.doc [("$gt", BVal.oid (objectIDFromHex lastID).1)])]
      else []
    let limit : Int := (parseInt64 pageSize).1
    let ev := Event.findQuery databaseName collectionName filter ⟨limit, [("_id", 1)]⟩
    match env.findErr with
    | some _ => (Outcome.panicked nilDerefMsg, [ev])
    | none =>
      match env.decodeErr with
      | some e => (Outcome.err e, [ev])
      | none => (Outcome.ok ResultVal.materialized, [ev])

/-- `GetALL(databaseName, collectionName, lastID, pageSize, dataModel)`. -/
def GetALL (env : MongoEnv)
    (databaseName collectionName lastID pageSize : String) :
    Outcome ResultVal × List Event :=
  runWithSession env (getAllBody env databaseName collectionName lastID pageSize)

/-- Everything `GetByField` does between session creation and
`EndSession`: filter construction (for `field = "_id"` the value goes
through `ObjectIDFromHex`, failure logged and the zero ObjectID used),
`FindOne`, then `SR.Decode` whose error check is inverted in the source
(`if err == nil { return err }; return nil`), so a decode failure still
returns the allocated-but-undecoded result with a nil error. -/
def getByFieldBody (env : MongoEnv)
    (databaseName collectionName field value : String) :
    Outcome ResultVal × List Event :=
  let filter : BsonM :=
    if field = "_id" then [(field, BVal.oid (objectIDFromHex value).1)]
    else [(field, BVal.str value)]
  let ev := Event.findOneQuery databaseName collectionName filter
  match env.findOneErr with
  | some e => (Outcome.err e, [ev])
  | none =>
    match env.decodeErr with
    | some _ => (Outcome.ok ResultVal.zeroValue, [ev])
    | none => (Outcome.ok ResultVal.materialized, [ev])

/-- `GetByField(databaseName, collectionName, field, value, dataModel)`. -/
def GetByField (env : MongoEnv)
    (databaseName collectionName field value : String) :
    Outcome ResultVal × List Event :=
  runWithSession env (getByFieldBody env databaseName collectionName field value)

/-- Everything `Create` does between session creation and `EndSession`:
one `InsertOne`. -/
def createBody (env : MongoEnv) (databaseName collectionName : String) :
    Outcome ResultVal × List Event :=
  let ev := Event.insertOp databaseName collectionName
  match env.insertErr with
  | some e => (Outcome.err e, [ev])
  | none => (Outcome.ok ResultVal.materialized, [ev])

/-- `Create(databaseName, collectionName, dataModel)`. -/
def Create (env : MongoEnv) (databaseName collectionName : String) :
    Outcome ResultVal × List Event :=
  runWithSession env (createBody env databaseName collectionName)

/-- Everything `Update` does between session creation and `EndSession`:
the `ID.(primitive.ObjectID)` type assertion (failure returns an error
from the closure before any store call), then `UpdateOne` on the filter
`{_id: id}` with `{$set: dataModel}`. -/
def updateBody (env : MongoEnv) (databaseName collectionName : String)
    (ID : GoValue) : Outcome ResultVal × List Event :=
  match asObjectID ID with
  | none => (Outcome.err typeMismatchMsg, [])
  | some id =>
    let ev := Event.updateOp databaseName collectionName [("_id", BVal.oid id)]
    match env.updateErr with
    | some e => (Outcome.err e, [ev])
    | none => (Outcome.ok ResultVal.materialized, [ev])

/-- `Update(databaseName, collectionName, ID, dataModel)`. -/
def Update (env : MongoEnv) (databaseName collectionName : String)
    (ID : GoValue) : Outcome ResultVal × List Event :=
  runWithSession env (updateBody env databaseName collectionName ID)

/-- Everything `Delete` does between session creation and `EndSession`:
the `ID.(primitive.ObjectID)` type assertion (failure returns an error
from the closure before any store call), then `DeleteOne` on `{_id: id}`. -/
def deleteBody (env : MongoEnv) (databaseName collectionName : String)
    (ID : GoValue) : Outcome ResultVal × List Event :=
  match asObjectID ID with
  | none => (Outcome.err typeMismatchMsg, [])
  | some id =>
    let ev := Event.deleteOp databaseName collectionName [("_id", BVal.oid id)]
    match env.deleteErr with
    | some e => (Outcome.err e, [ev])
    | none => (Outcome.ok ResultVal.materialized, [ev])

/-- `Delete(databaseName, collectionName, ID)`. -/
def Delete (env : MongoEnv) (databaseName collectionName : String)
    (ID : GoValue) : Outcome ResultVal × List Event :=
  runWithSession env (deleteBody env databaseName collectionName ID)

/-- Everything `MatchAndLookup` does between session creation and
`EndSession`: the match condition (identifier decoding for `"_id"`,
failure logged and the zero ObjectID used), the two-stage pipeline, the
`Aggregate` call — whose cursor is `nil` on error, so the already
deferred `cur.Close` panics — and `cur.All`. -/
def matchAndLookupBody (env : MongoEnv)
    (databaseName collectionForMatch fieldForMatch valueForMatch
      collectionForLookup fieldForLookup foreignField : String) :
    Outcome ResultVal × List Event :=
  let matchCondition : BsonM :=
    if fieldForMatch = "_id" then
      [(fieldForMatch, BVal.oid (objectIDFromHex valueForMatch).1)]
    else [(fieldForMatch, BVal.str valueForMatch)]
  let pipeline : List BsonM :=
    [ [("$match", BVal.doc matchCondition)],
      [("$lookup", BVal.doc
          [("from", BVal.str collectionForLookup),
           ("localField", BVal.str fieldForLookup),
           ("foreignField", BVal.str foreignField),
           ("as", BVal.str collectionForLookup)])] ]
  let ev := Event.aggregateQuery databaseName collectionForMatch pipeline
  match env.aggErr with
  | some _ => (Outcome.panicked nilDerefMsg, [ev])
  | none =>
    match env.decodeErr with
    | some e => (Outcome.err e, [ev])
    | none => (Outcome.ok ResultVal.materialized, [ev])

/-- `MatchAndLookup(databaseName, collectionForMatch, fieldForMatch,
valueForMatch, collectionForLookup, fieldForLookup, foreignField,
dataModel)`. -/
def MatchAndLookup (env : MongoEnv)
    (databaseName collectionForMatch fieldForMatch valueForMatch
      collectionForLookup fieldForLookup foreignField : String) :
    Outcome ResultVal × List Event :=
  runWithSession env
    (matchAndLookupBody env databaseName collectionForMatch fieldForMatch
      valueForMatch collectionForLookup fieldForLookup foreignField)

/-! Trace observations. -/

/-- Is the event a `StartSession` success? -/
def isSessionStartEv : Event → Bool
  | Event.sessionStart => true
  | _ => false

/-- Is the event an `EndSession`? -/
def isSessionEndEv : Event → Bool
  | Event.sessionEnd => true
  | _ => false

/-- Is the event a store query or mutation (anything other than session
or transaction management)? -/
def isStoreQueryEv : Event → Bool
  | Event.findQuery _ _ _ _ => true
  | Event.findOneQuery _ _ _ => true
  | Event.aggregateQuery _ _ _ => true
  | Event.insertOp _ _ => true
  | Event.updateOp _ _ _ => true
  | Event.deleteOp _ _ _ => true
  | _ => false

/-- Is the event a store mutation (insert, update or delete)? -/
def isMutationEv : Event → Bool
  | Event.insertOp _ _ => true
  | Event.updateOp _ _ _ => true
  | Event.deleteOp _ _ _ => true
  | _ => false

/-- Is the event a `Find` query? -/
def isFindEv : Event → Bool
  | Event.findQuery _ _ _ _ => true
  | _ => false

/-- Is the event a `FindOne` query? -/
def isFindOneEv : Event → Bool
  | Event.findOneQuery _ _ _ => true
  | _ => false

/-- Is the event an `Aggregate` query? -/
def isAggEv : Event → Bool
  | Event.aggregateQuery _ _ _ => true
  | _ => false

/-- Number of sessions started in a trace. -/
def sessionStartCount (tr : List Event) : Nat := (tr.filter isSessionStartEv).length

/-- Number of sessions ended in a trace. -/
def sessionEndCount (tr : List Event) : Nat := (tr.filter isSessionEndEv).length

/-- The store queries/mutations of a trace, in order. -/
def storeQueries (tr : List Event) : List Event := tr.filter isStoreQueryEv

/-- The store mutations of a trace, in order. -/
def mutations (tr : List Event) : List Event := tr.filter isMutationEv

/-- The `Find` queries of a trace, in order. -/
def findQueries (tr : List Event) : List Event := tr.filter isFindEv

/-- The `FindOne` queries of a trace, in order. -/
def findOneQueries (tr : List Event) : List Event := tr.filter isFindOneEv

/-- The `Aggregate` queries of a trace, in order. -/
def aggQueries (tr : List Event) : List Event := tr.filter isAggEv

/-- Did the call return an error (as opposed to succeeding or panicking)? -/
def isErr {α : Type} : Outcome α → Bool
  | Outcome.err _ => true
  | _ => false

/-- Did the call end in a propagating panic? -/
def isPanic {α : Type} : Outcome α → Bool
  | Outcome.panicked _ => true
  | _ => false

/-- An environment in which every store interaction succeeds. -/
def okEnv : MongoEnv := ⟨true, true, none, none, none, none, none, none, none⟩

/-- An environment in which `StartSession` fails (everything else would
succeed). -/
def sessionFailEnv : MongoEnv := ⟨false, true, none, none, none, none, none, none, none⟩

/-- An environment in which `StartSession` succeeds but
`StartTransaction` fails. -/
def txnFailEnv : MongoEnv := ⟨true, false, none, none, none, none, none, none, none⟩

/-- An environment in which `collection.Find` returns an error (and hence
a nil cursor). -/
def findFailEnv : MongoEnv :=
  ⟨true, true, some "network error", none, none, none, none, none, none⟩

/-- An environment in which `collection.Aggregate` returns an error (and
hence a nil cursor). -/
def aggFailEnv : MongoEnv :=
  ⟨true, true, none, none, some "network error", none, none, none, none⟩

/-- An environment in which the matched document cannot be decoded into
the caller's target shape. -/
def decodeFailEnv : MongoEnv :=
  ⟨true, true, none, none, none, some "error decoding key name: cannot decode string into an integer type", none, none, none⟩

/-- A call both opened and closed its session exactly once. -/
def sessionBalanced (r : Outcome ResultVal × List Event) : Prop :=
  sessionStartCount r.2 = 1 ∧ sessionEndCount r.2 = 1

/-! Helper lemmas about traces. -/

lemma sessionStartCount_append (t1 t2 : List Event) :
    sessionStartCount (t1 ++ t2) = sessionStartCount t1 + sessionStartCount t2 := by
  simp [sessionStartCount, List.filter_append]

lemma sessionEndCount_append (t1 t2 : List Event) :
    sessionEndCount (t1 ++ t2) = sessionEndCount t1 + sessionEndCount t2 := by
  simp [sessionEndCount, List.filter_append]

/-- The code between session creation and release of `GetALL` performs no
session management of its own. -/
lemma getAllBody_session_counts (env : MongoEnv) (a b c d : String) :
    sessionStartCount (getAllBody env a b c d).2 = 0 ∧
    sessionEndCount (getAllBody env a b c d).2 = 0 := by
  unfold getAllBody
  rcases env.findErr with _ | e <;> rcases env.decodeErr with _ | f <;>
    split <;>
    simp [sessionStartCount, sessionEndCount, isSessionStartEv, isSessionEndEv]

/-- The code between session creation and release of `GetByField`
performs no session management of its own. -/
lemma getByFieldBody_session_counts (env : MongoEnv) (a b c d : String) :
    sessionStartCount (getByFieldBody env a b c d).2 = 0 ∧
    sessionEndCount (getByFieldBody env a b c d).2 = 0 := by
  unfold getByFieldBody
  rcases env.findOneErr with _ | e <;> rcases env.decodeErr with _ | f <;>
    simp [sessionStartCount, sessionEndCount, isSessionStartEv, isSessionEndEv]

/-- The code between session creation and release of `Create` performs no
session management of its own. -/
lemma createBody_session_counts (env : MongoEnv) (a b : String) :
    sessionStartCount (createBody env a b).2 = 0 ∧
    sessionEndCount (createBody env a b).2 = 0 := by
  unfold createBody
  rcases env.insertErr with _ | e <;>
    simp [sessionStartCount, sessionEndCount, isSessionStartEv, isSessionEndEv]

/-- The code between session creation and release of `Update` performs no
session management of its own. -/
lemma updateBody_session_counts (env : MongoEnv) (a b : String) (ID : GoValue) :
    sessionStartCount (updateBody env a b ID).2 = 0 ∧
    sessionEndCount (updateBody env a b ID).2 = 0 := by
  unfold updateBody
  rcases asObjectID ID with _ | i <;> rcases env.updateErr with _ | e <;>
    simp [sessionStartCount, sessionEndCount, isSessionStartEv, isSessionEndEv]

/-- The code between session creation and release of `Delete` performs no
session management of its own. -/
lemma deleteBody_session_counts (env : MongoEnv) (a b : String) (ID : GoValue) :
    sessionStartCount (deleteBody env a b ID).2 = 0 ∧
    sessionEndCount (deleteBody env a b ID).2 = 0 := by
  unfold deleteBody
  rcases asObjectID ID with _ | i <;> rcases env.deleteErr with _ | e <;>
    simp [sessionStartCount, sessionEndCount, isSessionStartEv, isSessionEndEv]

/-- The code between session creation and release of `MatchAndLookup`
performs no session management of its own. -/
lemma matchAndLookupBody_session_counts (env : MongoEnv)
    (a b c d e f g : String) :
    sessionStartCount (matchAndLookupBody env a b c d e f g).2 = 0 ∧
    sessionEndCount (matchAndLookupBody env a b c d e f g).2 = 0 := by
  unfold matchAndLookupBody
  rcases env.aggErr with _ | x <;> rcases env.decodeErr with _ | y <;>
    simp [sessionStartCount, sessionEndCount, isSessionStartEv, isSessionEndEv]

/-- When `createSession` returns normally, the operation's trace is the
session/transaction opening, then the body's events, then the deferred
`EndSession`. -/
lemma runWithSession_trace (env : MongoEnv)
    (body : Outcome ResultVal × List Event)
    (h1 : env.sessionOk = true) (h2 : env.txnOk = true) :
    (runWithSession env body).2 =
      [Event.sessionStart, Event.txnStart] ++ body.2 ++ [Event.sessionEnd] := by
  unfold runWithSession createSession
  rw [h1, h2]
  rfl

/-- When `createSession` returns normally, the operation's outcome is the
body's outcome. -/
lemma runWithSession_outcome (env : MongoEnv)
    (body : Outcome ResultVal × List Event)
    (h1 : env.sessionOk = true) (h2 : env.txnOk = true) :
    (runWithSession env body).1 = body.1 := by
  unfold runWithSession createSession
  rw [h1, h2]
  rfl

/-- When `createSession` returns normally, the session wrapper opens and
closes the session exactly once around a body that does neither. -/
lemma runWithSession_balanced (env : MongoEnv)
    (body : Outcome ResultVal × List Event)
    (h1 : env.sessionOk = true) (h2 : env.txnOk = true)
    (hb1 : sessionStartCount body.2 = 0) (hb2 : sessionEndCount body.2 = 0) :
    sessionBalanced (runWithSession env body) := by
  unfold sessionBalanced
  rw [runWithSession_trace env body h1 h2]
  constructor
  · rw [sessionStartCount_append, sessionStartCount_append, hb1]
    rfl
  · rw [sessionEndCount_append, sessionEndCount_append, hb2]
    rfl

/-- When `StartSession` or `StartTransaction` fails, the wrapper
propagates the panic of `createSession`. -/
lemma runWithSession_panics (env : MongoEnv)
    (body : Outcome ResultVal × List Event)
    (h : (env.sessionOk && env.txnOk) = false) :
    isPanic (runWithSession env body).1 = true := by
  unfold runWithSession createSession
  cases hso : env.sessionOk <;> cases hto : env.txnOk <;>
    simp_all [isPanic]

/-- When the arguments are not all empty, the only events of the `GetALL`
body are one `Find` with the keyset filter, ascending `_id` sort and the
`ParseInt`-produced limit. -/
lemma getAllBody_events (env : MongoEnv) (db coll lastID pageSize : String)
    (h3 : ¬(db = "" ∧ coll = "" ∧ lastID = "" ∧ pageSize = "")) :
    (getAllBody env db coll lastID pageSize).2 =
      [Event.findQuery db coll
        (if lastID = "" then []
         else [("_id", BVal.doc [("$gt", BVal.oid (objectIDFromHex lastID).1)])])
        ⟨(parseInt64 pageSize).1, [("_id", 1)]⟩] := by
  obtain ⟨so, tn, fe, foe, ae, de, ie, ue, dle⟩ := env
  unfold getAllBody
  rw [if_neg h3]
  by_cases hl : lastID = "" <;>
    cases fe <;> cases de <;>
      simp [hl]

/-- The only events of the `MatchAndLookup` body are one `Aggregate` with
the two-stage match-then-lookup pipeline. -/
lemma matchAndLookupBody_events (env : MongoEnv)
    (db mc mf mv lc lf ff : String) :
    (matchAndLookupBody env db mc mf mv lc lf ff).2 =
      [Event.aggregateQuery db mc
        [ [("$match", BVal.doc (if mf = "_id"
              then [(mf, BVal.oid (objectIDFromHex mv).1)]
              else [(mf, BVal.str mv)]))],
          [("$lookup", BVal.doc
              [("from", BVal.str lc), ("localField", BVal.str lf),
               ("foreignField", BVal.str ff), ("as", BVal.str lc)])] ]] := by
  obtain ⟨so, tn, fe, foe, ae, de, ie, ue, dle⟩ := env
  unfold matchAndLookupBody
  cases ae <;> cases de <;> rfl

/-! Claims. -/

/-- C1, counterexample: when `StartSession` succeeds but
`StartTransaction` fails, `createSession` panics and the session it
created is never released — refuting release-exactly-once on the
panic-equivalent exit path. -/
theorem C1_counterexample :
    sessionStartCount (GetALL txnFailEnv "db" "users" "" "2").2 = 1 ∧
    sessionEndCount (GetALL txnFailEnv "db" "users" "" "2").2 = 0 :=
  ⟨rfl, rfl⟩

/-- C1, amended: on every call on which `createSession` returns (both
`StartSession` and `StartTransaction` succeed), each of the six public
operations starts exactly one session and releases it exactly once, on
every exit path — success, store error, decode error, or the panic of the
deferred close of a nil cursor. -/
theorem C1_session_released_exactly_once (env : MongoEnv)
    (a b c d e f g : String) (ID : GoValue)
    (h1 : env.sessionOk = true) (h2 : env.txnOk = true) :
    sessionBalanced (GetALL env a b c d) ∧
    sessionBalanced (GetByField env a b c d) ∧
    sessionBalanced (Create env a b) ∧
    sessionBalanced (Update env a b ID) ∧
    sessionBalanced (Delete env a b ID) ∧
    sessionBalanced (MatchAndLookup env a b c d e f g) :=
  ⟨runWithSession_balanced env _ h1 h2
      (getAllBody_session_counts env a b c d).1 (getAllBody_session_counts env a b c d).2,
   runWithSession_balanced env _ h1 h2
      (getByFieldBody_session_counts env a b c d).1 (getByFieldBody_session_counts env a b c d).2,
   runWithSession_balanced env _ h1 h2
      (createBody_session_counts env a b).1 (createBody_session_counts env a b).2,
   runWithSession_balanced env _ h1 h2
      (updateBody_session_counts env a b ID).1 (updateBody_session_counts env a b ID).2,
   runWithSession_balanced env _ h1 h2
      (deleteBody_session_counts env a b ID).1 (deleteBody_session_counts env a b ID).2,
   runWithSession_balanced env _ h1 h2
      (matchAndLookupBody_session_counts env a b c d e f g).1
      (matchAndLookupBody_session_counts env a b c d e f g).2⟩

/-- C1, witness: the amended theorem at a concrete environment and
concrete arguments. -/
theorem C1_witness :
    okEnv.sessionOk = true ∧ okEnv.txnOk = true ∧
    (sessionBalanced (GetALL okEnv "db" "users" "" "2") ∧
     sessionBalanced (GetByField okEnv "db" "users" "" "2") ∧
     sessionBalanced (Create okEnv "db" "users") ∧
     sessionBalanced (Update okEnv "db" "users" GoValue.otherV) ∧
     sessionBalanced (Delete okEnv "db" "users" GoValue.otherV) ∧
     sessionBalanced (MatchAndLookup okEnv "db" "users" "" "2" "orders" "a" "b")) :=
  ⟨rfl, rfl,
    C1_session_released_exactly_once okEnv "db" "users" "" "2" "orders" "a" "b"
      GoValue.otherV rfl rfl⟩

/-- C2: code bug.  `GetByField` with `field = "_id"` and a value that
does not decode: `ObjectIDFromHex` fails, but the code only logs and
proceeds, issuing the `FindOne` with the zero-value `ObjectID` and
returning without any `InvalidIdentifier` error. -/
theorem C2_invalid_id_not_rejected :
    (objectIDFromHex "zzz").2 = some "the provided hex string is not a valid ObjectID" ∧
    isErr (GetByField okEnv "db" "users" "_id" "zzz").1 = false ∧
    isPanic (GetByField okEnv "db" "users" "_id" "zzz").1 = false ∧
    findOneQueries (GetByField okEnv "db" "users" "_id" "zzz").2 =
      [Event.findOneQuery "db" "users" [("_id", BVal.oid nilObjectID)]] :=
  ⟨rfl, rfl, rfl, rfl⟩

/-- C3: code bug.  When the matched document cannot be decoded into the
caller's target type, `GetByField` still returns success (the inverted
check `if err == nil { return err }; return nil` swallows the decode
error), handing back the allocated-but-undecoded result. -/
theorem C3_decode_error_swallowed :
    decodeFailEnv.decodeErr =
      some "error decoding key name: cannot decode string into an integer type" ∧
    (GetByField decodeFailEnv "db" "users" "name" "bob").1 =
      Outcome.ok ResultVal.zeroValue :=
  ⟨rfl, rfl⟩

/-- C4, counterexample: when the store cannot allocate a session,
`GetALL` panics instead of returning a `SessionError` to the caller. -/
theorem C4_counterexample :
    (GetALL sessionFailEnv "db" "users" "" "2").1 =
      Outcome.panicked "Error when try to start session" ∧
    isErr (GetALL sessionFailEnv "db" "users" "" "2").1 = false :=
  ⟨rfl, rfl⟩

/-- C4, amended: if the session cannot be allocated or the transaction
cannot be started, every public operation panics (the layer aborts)
rather than returning a `SessionError`/`TransactionError`. -/
theorem C4_session_failure_panics (env : MongoEnv)
    (a b c d e f g : String) (ID : GoValue)
    (h : (env.sessionOk && env.txnOk) = false) :
    isPanic (GetALL env a b c d).1 = true ∧
    isPanic (GetByField env a b c d).1 = true ∧
    isPanic (Create env a b).1 = true ∧
    isPanic (Update env a b ID).1 = true ∧
    isPanic (Delete env a b ID).1 = true ∧
    isPanic (MatchAndLookup env a b c d e f g).1 = true :=
  ⟨runWithSession_panics env _ h, runWithSession_panics env _ h,
   runWithSession_panics env _ h, runWithSession_panics env _ h,
   runWithSession_panics env _ h, runWithSession_panics env _ h⟩

/-- C4, witness: the amended theorem at a concrete environment (failed
transaction start) and concrete arguments. -/
theorem C4_witness :
    (txnFailEnv.sessionOk && txnFailEnv.txnOk) = false ∧
    (isPanic (GetALL txnFailEnv "db" "users" "" "2").1 = true ∧
     isPanic (GetByField txnFailEnv "db" "users" "" "2").1 = true ∧
     isPanic (Create txnFailEnv "db" "users").1 = true ∧
     isPanic (Update txnFailEnv "db" "users" GoValue.otherV).1 = true ∧
     isPanic (Delete txnFailEnv "db" "users" GoValue.otherV).1 = true ∧
     isPanic (MatchAndLookup txnFailEnv "db" "users" "" "2" "orders" "a" "b").1 = true) :=
  ⟨rfl,
    C4_session_failure_panics txnFailEnv "db" "users" "" "2" "orders" "a" "b"
      GoValue.otherV rfl⟩

/-- C5: `GetALL` issues exactly one `Find`; with an empty `lastID` its
filter is empty, with a non-empty (and decodable) `lastID` the filter is
`_id > decoded lastID`; the sort is ascending on `_id` and the limit is
the parsed `pageSize`. -/
theorem C5_getall_query_shape (env : MongoEnv) (db coll lastID pageSize : String)
    (h1 : env.sessionOk = true) (h2 : env.txnOk = true)
    (h3 : ¬(db = "" ∧ coll = "" ∧ lastID = "" ∧ pageSize = ""))
    (_h4 : lastID ≠ "" → (objectIDFromHex lastID).2 = none)
    (_h5 : (parseInt64 pageSize).2 = none) :
    findQueries (GetALL env db coll lastID pageSize).2 =
      [Event.findQuery db coll
        (if lastID = "" then []
         else [("_id", BVal.doc [("$gt", BVal.oid (objectIDFromHex lastID).1)])])
        ⟨(parseInt64 pageSize).1, [("_id", 1)]⟩] := by
  unfold GetALL
  rw [runWithSession_trace env _ h1 h2,
    getAllBody_events env db coll lastID pageSize h3]
  by_cases hl : lastID = "" <;> simp [hl, findQueries, isFindEv]

/-- C5, witness: the theorem at a concrete environment, a decodable
`lastID` and a parseable `pageSize`. -/
theorem C5_witness :
    okEnv.sessionOk = true ∧ okEnv.txnOk = true ∧
    ¬(("db" : String) = "" ∧ ("users" : String) = "" ∧
      ("0123456789abcdef01234567" : String) = "" ∧ ("5" : String) = "") ∧
    (("0123456789abcdef01234567" : String) ≠ "" →
      (objectIDFromHex "0123456789abcdef01234567").2 = none) ∧
    (parseInt64 "5").2 = none ∧
    findQueries (GetALL okEnv "db" "users" "0123456789abcdef01234567" "5").2 =
      [Event.findQuery "db" "users"
        (if ("0123456789abcdef01234567" : String) = "" then []
         else [("_id", BVal.doc
            [("$gt", BVal.oid (objectIDFromHex "0123456789abcdef01234567").1)])])
        ⟨(parseInt64 "5").1, [("_id", 1)]⟩] :=
  ⟨rfl, rfl, by decide, fun _ => by decide, by decide,
    C5_getall_query_shape okEnv "db" "users" "0123456789abcdef01234567" "5"
      rfl rfl (by decide) (fun _ => by decide) (by decide)⟩

/-- C6: code bug.  A `pageSize` that does not parse makes `ParseInt`
fail, but `GetALL` only logs and proceeds with the zero limit: the call
is not rejected and the `Find` runs with limit 0. -/
theorem C6_pagesize_failure_not_rejected :
    (parseInt64 "abc").2 = some "strconv.ParseInt: parsing \"abc\": invalid syntax" ∧
    isErr (GetALL okEnv "db" "users" "" "abc").1 = false ∧
    isPanic (GetALL okEnv "db" "users" "" "abc").1 = false ∧
    findQueries (GetALL okEnv "db" "users" "" "abc").2 =
      [Event.findQuery "db" "users" [] ⟨0, [("_id", 1)]⟩] :=
  ⟨rfl, rfl, rfl, rfl⟩

/-- C7, counterexample: with all four arguments empty, `GetALL` does
return the validation error, but a session has already been opened
(`createSession` runs before the validation check), refuting "no session
is opened". -/
theorem C7_counterexample :
    (GetALL okEnv "" "" "" "").1 = Outcome.err emptyArgsMsg ∧
    sessionStartCount (GetALL okEnv "" "" "" "").2 = 1 :=
  ⟨rfl, rfl⟩

/-- C7, amended: with all four arguments simultaneously empty, `GetALL`
returns the validation error and issues no store query; however a session
is first opened (and released exactly once). -/
theorem C7_empty_args_validation (env : MongoEnv)
    (h1 : env.sessionOk = true) (h2 : env.txnOk = true) :
    (GetALL env "" "" "" "").1 = Outcome.err emptyArgsMsg ∧
    storeQueries (GetALL env "" "" "" "").2 = [] ∧
    sessionBalanced (GetALL env "" "" "" "") := by
  refine ⟨?_, ?_, ?_⟩
  · unfold GetALL
    rw [runWithSession_outcome env _ h1 h2]
    rfl
  · unfold GetALL
    rw [runWithSession_trace env _ h1 h2]
    rfl
  · exact runWithSession_balanced env _ h1 h2
      (getAllBody_session_counts env "" "" "" "").1
      (getAllBody_session_counts env "" "" "" "").2

/-- C7, witness: the amended theorem at a concrete environment. -/
theorem C7_witness :
    okEnv.sessionOk = true ∧ okEnv.txnOk = true ∧
    ((GetALL okEnv "" "" "" "").1 = Outcome.err emptyArgsMsg ∧
     storeQueries (GetALL okEnv "" "" "" "").2 = [] ∧
     sessionBalanced (GetALL okEnv "" "" "" "")) :=
  ⟨rfl, rfl, C7_empty_args_validation okEnv rfl rfl⟩

/-- C8: `Update` and `Delete` with an `ID` that is not a
`primitive.ObjectID` fail with the type-mismatch error of the failed type
assertion, and perform no store mutation. -/
theorem C8_update_delete_type_mismatch (env : MongoEnv) (a b : String)
    (ID : GoValue)
    (h1 : env.sessionOk = true) (h2 : env.txnOk = true)
    (h3 : asObjectID ID = none) :
    (Update env a b ID).1 = Outcome.err typeMismatchMsg ∧
    mutations (Update env a b ID).2 = [] ∧
    (Delete env a b ID).1 = Outcome.err typeMismatchMsg ∧
    mutations (Delete env a b ID).2 = [] := by
  refine ⟨?_, ?_, ?_, ?_⟩
  · unfold Update
    rw [runWithSession_outcome env _ h1 h2]
    unfold updateBody
    rw [h3]
  · unfold Update
    rw [runWithSession_trace env _ h1 h2]
    unfold updateBody
    rw [h3]
    rfl
  · unfold Delete
    rw [runWithSession_outcome env _ h1 h2]
    unfold deleteBody
    rw [h3]
  · unfold Delete
    rw [runWithSession_trace env _ h1 h2]
    unfold deleteBody
    rw [h3]
    rfl

/-- C8, witness: the theorem at a concrete environment and a string-typed
(raw, undecoded) identifier argument. -/
theorem C8_witness :
    okEnv.sessionOk = true ∧ okEnv.txnOk = true ∧
    asObjectID (GoValue.strV "u1") = none ∧
    ((Update okEnv "db" "users" (GoValue.strV "u1")).1 = Outcome.err typeMismatchMsg ∧
     mutations (Update okEnv "db" "users" (GoValue.strV "u1")).2 = [] ∧
     (Delete okEnv "db" "users" (GoValue.strV "u1")).1 = Outcome.err typeMismatchMsg ∧
     mutations (Delete okEnv "db" "users" (GoValue.strV "u1")).2 = []) :=
  ⟨rfl, rfl, rfl,
    C8_update_delete_type_mismatch okEnv "db" "users" (GoValue.strV "u1") rfl rfl rfl⟩

/-- C9: `MatchAndLookup` issues exactly one `Aggregate`, whose pipeline
is the `$match` stage on `fieldForMatch == valueForMatch` (the value
passed through identifier decoding when the field is `"_id"`) followed by
the `$lookup` stage with the given local and foreign fields, its output
keyed by the lookup collection's name. -/
theorem C9_pipeline_shape (env : MongoEnv) (db mc mf mv lc lf ff : String)
    (h1 : env.sessionOk = true) (h2 : env.txnOk = true) :
    aggQueries (MatchAndLookup env db mc mf mv lc lf ff).2 =
      [Event.aggregateQuery db mc
        [ [("$match", BVal.doc (if mf = "_id"
              then [(mf, BVal.oid (objectIDFromHex mv).1)]
              else [(mf, BVal.str mv)]))],
          [("$lookup", BVal.doc
              [("from", BVal.str lc), ("localField", BVal.str lf),
               ("foreignField", BVal.str ff), ("as", BVal.str lc)])] ]] := by
  unfold MatchAndLookup
  rw [runWithSession_trace env _ h1 h2,
    matchAndLookupBody_events env db mc mf mv lc lf ff]
  rfl

/-- C9, witness: the theorem at a concrete environment and arguments. -/
theorem C9_witness :
    okEnv.sessionOk = true ∧ okEnv.txnOk = true ∧
    aggQueries (MatchAndLookup okEnv "db" "users" "role" "admin" "orders" "uid" "owner").2 =
      [Event.aggregateQuery "db" "users"
        [ [("$match", BVal.doc (if ("role" : String) = "_id"
              then [("role", BVal.oid (objectIDFromHex "admin").1)]
              else [("role", BVal.str "admin")]))],
          [("$lookup", BVal.doc
              [("from", BVal.str "orders"), ("localField", BVal.str "uid"),
               ("foreignField", BVal.str "owner"), ("as", BVal.str "orders")])] ]] :=
  ⟨rfl, rfl,
    C9_pipeline_shape okEnv "db" "users" "role" "admin" "orders" "uid" "owner" rfl rfl⟩

/-- C10: code bug.  When `Find` (in `GetALL`) or `Aggregate` (in
`MatchAndLookup`) returns an error, the cursor is nil, and the
`defer cur.Close(ctx)` registered before the error check dereferences it:
the call panics instead of returning the store error. -/
theorem C10_nil_cursor_deref :
    findFailEnv.findErr = some "network error" ∧
    (GetALL findFailEnv "db" "users" "" "2").1 = Outcome.panicked nilDerefMsg ∧
    isErr (GetALL findFailEnv "db" "users" "" "2").1 = false ∧
    aggFailEnv.aggErr = some "network error" ∧
    (MatchAndLookup aggFailEnv "db" "users" "role" "admin" "orders" "uid" "owner").1 =
      Outcome.panicked nilDerefMsg ∧
    isErr (MatchAndLookup aggFailEnv "db" "users" "role" "admin" "orders" "uid" "owner").1 = false :=
  ⟨rfl, rfl, rfl, rfl, rfl, rfl⟩

end MongoDB
